import Mathlib

/-!
Verification development for an e-commerce microservice system:
an M-Pesa payment orchestration service, an auth service issuing JWT
access/refresh tokens, an order store service, an email notification
service, and a browser client with a token-refresh coordinator.

Each service's request handlers are embedded as pure Lean functions.
Network and clock effects (axios call outcomes, Date.now, Math.random)
are passed in explicitly as environment values, so a handler is a
function from its inputs and environment to its HTTP response together
with a record of which downstream calls it made.
-/

/-! ## JWT model

The services use the jsonwebtoken library (an external dependency).
It is modelled here by its documented behaviour: `sign` produces a token
carrying the payload, an expiry, and a MAC over payload and expiry with
the secret; `verify` rejects malformed tokens and bad MACs as invalid,
and otherwise rejects tokens whose expiry has elapsed as expired
(TokenExpiredError is only raised after the signature has checked out).
The MAC itself is abstracted by a concrete deterministic function of the
secret and the signed fields; none of the claims depend on its
collision behaviour, only on determinism and on the equality check.
-/

/-- JWT payload signed by the auth service: `{ userId, email }`. -/
structure Claims where
  userId : Nat
  email : String
deriving DecidableEq

/-- A structurally well-formed signed token: payload, expiry (epoch
seconds) and the MAC value carried by the token. -/
structure SignedToken where
  claims : Claims
  expiresAt : Nat
  sig : Nat
deriving DecidableEq

/-- A bearer token as received on the wire: either structurally
well-formed or malformed (not three dot-separated base64 segments). -/
inductive Token where
  | wellFormed (t : SignedToken)
  | malformed (raw : String)
deriving DecidableEq

/-- Deterministic code of a string, used to build the abstract MAC. -/
def strCode (s : String) : Nat :=
  s.data.foldl (fun a c => a * 131 + c.toNat) 7

/-- Abstract MAC over the signed fields, keyed by the secret. -/
def signature (secret : String) (c : Claims) (expiresAt : Nat) : Nat :=
  strCode secret * 1000003 + strCode c.email * 8191 + c.userId * 127 + expiresAt

/-- jwt.sign: emit the payload and expiry together with their MAC. -/
def signToken (secret : String) (c : Claims) (expiresAt : Nat) : SignedToken :=
  { claims := c, expiresAt := expiresAt, sig := signature secret c expiresAt }

/-- Outcome of jwt.verify: decoded claims, TokenExpiredError, or any
other verification error (bad signature / malformed token). -/
inductive VerifyResult where
  | ok (c : Claims)
  | expired
  | invalid
deriving DecidableEq

/-- jwt.verify(token, secret) at time `now` (epoch seconds): malformed
tokens and bad MACs are invalid; with a valid MAC, an elapsed expiry
raises TokenExpiredError; otherwise the payload is returned. -/
def jwtVerify (secret : String) (now : Nat) : Token → VerifyResult
  | .malformed _ => .invalid
  | .wellFormed t =>
    if t.sig = signature secret t.claims t.expiresAt then
      if t.expiresAt ≤ now then .expired else .ok t.claims
    else .invalid

/-- Auth service, login route: `jwt.sign({userId, email}, JWT_SECRET,
{expiresIn: '1h'})` issued at time `now`. -/
def issueAccessToken (secret : String) (now : Nat) (userId : Nat) (email : String) : Token :=
  .wellFormed (signToken secret ⟨userId, email⟩ (now + 3600))

/-- Auth service, login route: `jwt.sign({userId, email}, JWT_SECRET,
{expiresIn: '7d'})` issued at time `now`. -/
def issueRefreshToken (secret : String) (now : Nat) (userId : Nat) (email : String) : Token :=
  .wellFormed (signToken secret ⟨userId, email⟩ (now + 604800))

/-! ## Auth middleware (`middleware/auth.js`, `authenticateToken`) -/

/-- JSON body and status of a rejection sent by the middleware.
`expired = none` models the `expired` key being absent from the body. -/
structure AuthRejectBody where
  status : Nat
  success : Bool
  message : String
  expired : Option Bool
deriving DecidableEq

/-- Result of running the middleware: either the request proceeds with
`req.user` set to the decoded claims, or a rejection is sent. -/
inductive AuthOutcome where
  | proceed (user : Claims)
  | reject (resp : AuthRejectBody)
deriving DecidableEq

/-- `authenticateToken`: no bearer token yields 401; TokenExpiredError
yields 401 with `expired: true`; any other verification error yields
403 with no `expired` key; success attaches the claims and continues. -/
def authenticateToken (secret : String) (now : Nat) (token : Option Token) : AuthOutcome :=
  match token with
  | none => .reject ⟨401, false, "Access token required", none⟩
  | some t =>
    match jwtVerify secret now t with
    | .ok c => .proceed c
    | .expired => .reject ⟨401, false, "Access token expired", some true⟩
    | .invalid => .reject ⟨403, false, "Invalid access token", none⟩

/-! ## Auth service refresh route (`app.post('/refresh-token')`) -/

/-- The `data` object of an auth-service response body. A `none` field
models the corresponding key being absent from the JSON object: the
refresh route's `data` carries only `accessToken`. -/
structure TokenPairData where
  accessToken : Option Token
  refreshToken : Option Token
deriving DecidableEq

/-- HTTP response of the refresh route. -/
structure AuthHttpResponse where
  status : Nat
  success : Bool
  message : String
  data : Option TokenPairData
deriving DecidableEq

/-- `/refresh-token`: verify the supplied refresh token; on success sign
a fresh one-hour access token from the decoded `{userId, email}` and
respond 200 with `data: { accessToken }`; any verification error is
caught and becomes a 500 failure response. The handler never touches
the refresh token itself: nothing is re-signed or stored. -/
def refreshTokenRoute (secret : String) (now : Nat) (refreshToken : Token) : AuthHttpResponse :=
  match jwtVerify secret now refreshToken with
  | .ok decoded =>
    { status := 200, success := true, message := "Token refreshed successfully",
      data := some { accessToken := some (issueAccessToken secret now decoded.userId decoded.email),
                     refreshToken := none } }
  | _ =>
    { status := 500, success := false, message := "Failed to refresh token", data := none }

/-! ## Payment service (`email/index.js`, port 4000)

The route handler's effects are the three outbound axios calls. Each
call's network outcome is supplied as an environment value; the handler
returns its HTTP response together with a `SagaCalls` record stating
which downstream calls were issued and with what payload.
-/

/-- A cart item as sent by the client. -/
structure CartItem where
  id : Nat
  name : String
  price : Int
  quantity : Nat
deriving DecidableEq

/-- Request body of `POST /api/payment`. `none` models a missing key
(JS `undefined`). `total` is an integer amount in MZN. -/
structure PaymentBody where
  cart : Option (List CartItem)
  total : Option Int
  customerPhone : Option String
deriving DecidableEq

/-- The success payload returned by the M-Pesa sandbox API. -/
structure MpesaData where
  output_TransactionID : String
  output_ConversationID : String
  output_ResponseCode : String
  output_ResponseDesc : String
deriving DecidableEq

/-- Outcome of one axios request as seen by the caller: a resolved
response with its HTTP status and parsed body, or a rejection carrying
an optional error response (status and body) and an error message
(`error.response` is absent on network errors and timeouts). -/
inductive AxiosResult (α : Type) where
  | ok (status : Nat) (data : α)
  | err (responseStatus : Option Nat) (responseData : Option String) (message : String)
deriving DecidableEq

/-- Value returned by `processMpesaPayment` to the route handler. -/
inductive MpesaResult where
  | success (statusCode : Nat) (data : MpesaData)
  | failure (statusCode : Nat) (error : String)
deriving DecidableEq

/-- `processMpesaPayment`: on a resolved axios call return
`{success: true, statusCode: response.status, data: response.data}`;
on a rejected call return `{success: false, statusCode:
error.response?.status || 500, error: error.response?.data ||
error.message}`. -/
def processMpesaPayment (env : AxiosResult MpesaData) : MpesaResult :=
  match env with
  | .ok status data => .success status data
  | .err responseStatus responseData message =>
    .failure (responseStatus.getD 500) (responseData.getD message)

/-- Order-service reply to the `POST /orders` call, as the payment
service sees it: a created order id, or a rejection message. -/
inductive CreateOrderEnv where
  | ok (orderId : String)
  | err (message : String)
deriving DecidableEq

/-- Value returned by `createOrder`: `{success: true, data}` with the
order service's `data` (of which only `orderId` is read), or
`{success: false, error}` when the axios call rejected. -/
structure CreateOrderResult where
  success : Bool
  orderId : Option String
  error : Option String
deriving DecidableEq

/-- `createOrder`: forward the order to the order service; a rejection
is caught and reported as `success: false` (the payment is not failed
when the order service is down). -/
def createOrder (env : CreateOrderEnv) : CreateOrderResult :=
  match env with
  | .ok orderId => { success := true, orderId := some orderId, error := none }
  | .err message => { success := false, orderId := none, error := some message }

/-- Email-service reply to the `POST /send-email` call. -/
inductive SendEmailEnv where
  | ok
  | err (message : String)
deriving DecidableEq

/-- Value returned by `sendEmail`; the route handler ignores it beyond
logging, so only the success flag is modelled. -/
def sendEmail (env : SendEmailEnv) : Bool :=
  match env with
  | .ok => true
  | .err _ => false

/-- `formatPhoneNumber`: prefix `258` unless already present. -/
def formatPhoneNumber (phone : String) : String :=
  if phone.startsWith "258" then phone else "258" ++ phone

/-- `generateTransactionRef`:
`` `TXN${Date.now()}${Math.floor(Math.random() * 1000)}` ``.
`nowMs` is the `Date.now()` reading and `rand` the value of
`Math.floor(Math.random() * 1000)` (a number in `[0, 999]`). -/
def generateTransactionRef (nowMs : Nat) (rand : Nat) : String :=
  "TXN" ++ Nat.repr nowMs ++ Nat.repr rand

/-- `generateThirdPartyRef`:
`Math.random().toString(36).substring(2, 12).toUpperCase()`, where
`randStr` is the base-36 rendering of the `Math.random()` draw. -/
def generateThirdPartyRef (randStr : String) : String :=
  (((randStr.drop 2).take 10).toUpper)

/-- Default test phone from `MPESA_CONFIG`. -/
def defaultPhone : String := "258845760448"

/-- The `data` object of a successful payment response. `orderId` is
attached only when the order-service call succeeded. The four
`performance` entries are the measured millisecond durations
(mpesaPayment, orderCreation, emailSending, total) that the handler
formats as seconds strings. -/
structure PaymentResponseData where
  transactionId : String
  conversationId : String
  responseCode : String
  responseDesc : String
  transactionReference : String
  thirdPartyReference : String
  amount : Int
  cart : Option (List CartItem)
  orderId : Option String
  performance : Nat × Nat × Nat × Nat
deriving DecidableEq

/-- HTTP response of `POST /api/payment`. -/
inductive PaymentRouteResponse where
  | ok (status : Nat) (success : Bool) (message : String) (data : PaymentResponseData)
  | fail (status : Nat) (success : Bool) (message : String) (error : Option String)
deriving DecidableEq

/-- Which downstream calls one run of the route handler issued, with
the payload data relevant to the claims: the phone and amount sent to
the gateway, and the `userId` sent to the order service. -/
structure SagaCalls where
  gatewayCalled : Bool
  orderCalled : Bool
  emailCalled : Bool
  gatewayPhone : Option String
  gatewayAmount : Option Int
  orderUserId : Option Nat
deriving DecidableEq

/-- Environment of one run of the payment route: the three network
outcomes and the measured durations. -/
structure PaymentRouteEnv where
  mpesa : AxiosResult MpesaData
  order : CreateOrderEnv
  email : SendEmailEnv
  durations : Nat × Nat × Nat × Nat
deriving DecidableEq

/-- `apiRouter.post('/payment')` after `authenticateToken` attached
`user`. `nowMs` and `rand` feed `generateTransactionRef`, `randStr`
feeds `generateThirdPartyRef`. Follows the source: reject when
`!total || total <= 0`; resolve the phone with
`customerPhone || MPESA_CONFIG.defaultPhone` (an empty string is falsy);
call the gateway; on `success && statusCode === 201` build the response
skeleton, call the order service (attaching `orderId` only on its
success), call the email service, and reply 200; otherwise reply with
`result.statusCode` and `{success: false, message: 'Payment failed',
error: result.error}`. -/
def paymentRoute (user : Claims) (body : PaymentBody)
    (nowMs : Nat) (rand : Nat) (randStr : String)
    (env : PaymentRouteEnv) : PaymentRouteResponse × SagaCalls :=
  let totalFalsyOrNonpos :=
    match body.total with
    | none => true
    | some t => t = 0 || t ≤ 0
  if totalFalsyOrNonpos then
    (.fail 400 false "Invalid or missing total amount" none,
     ⟨false, false, false, none, none, none⟩)
  else
    let total := body.total.getD 0
    let phone :=
      match body.customerPhone with
      | some p => if p = "" then defaultPhone else p
      | none => defaultPhone
    let transactionRef := generateTransactionRef nowMs rand
    let thirdPartyRef := generateThirdPartyRef randStr
    match processMpesaPayment env.mpesa with
    | .success statusCode data =>
      if statusCode = 201 then
        let orderResult := createOrder env.order
        let orderId := if orderResult.success then orderResult.orderId else none
        let _emailOk := sendEmail env.email
        (.ok 200 true "Payment processed successfully"
          { transactionId := data.output_TransactionID,
            conversationId := data.output_ConversationID,
            responseCode := data.output_ResponseCode,
            responseDesc := data.output_ResponseDesc,
            transactionReference := transactionRef,
            thirdPartyReference := thirdPartyRef,
            amount := total,
            cart := body.cart,
            orderId := orderId,
            performance := env.durations },
         ⟨true, true, true, some (formatPhoneNumber phone), some total, some user.userId⟩)
      else
        (.fail statusCode false "Payment failed" none,
         ⟨true, false, false, some (formatPhoneNumber phone), some total, none⟩)
    | .failure statusCode error =>
      (.fail statusCode false "Payment failed" (some error),
       ⟨true, false, false, some (formatPhoneNumber phone), some total, none⟩)

/-! ## Order service (port 4001)

The `orders` table is modelled as a list of rows; the SQL `WHERE`
clauses become filters over it. Rows are already in the formatted
(camelCase) shape the routes return, since the routes copy every column
into the response object.
-/

/-- One row of the `orders` table, in the shape the routes return.
`created_at` is an epoch timestamp used by `ORDER BY created_at DESC`. -/
structure OrderRow where
  order_id : String
  user_id : Nat
  transaction_id : String
  conversation_id : String
  transaction_reference : String
  third_party_reference : String
  amount : Int
  cart : List CartItem
  customer_phone : String
  status : String
  created_at : Nat
  updated_at : Nat
deriving DecidableEq

/-- Response of the list route `GET /api/orders`. -/
structure OrdersListResponse where
  status : Nat
  success : Bool
  count : Nat
  data : List OrderRow
deriving DecidableEq

/-- Response of the two single-order lookup routes. -/
inductive OrderLookupResponse where
  | found (status : Nat) (success : Bool) (order : OrderRow)
  | notFound (status : Nat) (success : Bool) (message : String)
deriving DecidableEq

/-- `GET /api/orders`:
`SELECT * FROM orders WHERE user_id = $1 ORDER BY created_at DESC` with
`$1 = req.user.userId`, answered with the row count and the rows. -/
def getOrdersRoute (db : List OrderRow) (user : Claims) : OrdersListResponse :=
  let rows := (db.filter fun o => o.user_id == user.userId).mergeSort
    (fun a b => decide (b.created_at ≤ a.created_at))
  { status := 200, success := true, count := rows.length, data := rows }

/-- `GET /api/orders/:orderId`:
`SELECT * FROM orders WHERE order_id = $1 AND user_id = $2` with
`$2 = req.user.userId`; an empty result set is answered with 404. -/
def getOrderByIdRoute (db : List OrderRow) (user : Claims) (orderId : String) :
    OrderLookupResponse :=
  match (db.filter fun o => o.order_id == orderId && o.user_id == user.userId).head? with
  | none => .notFound 404 false "Order not found"
  | some row => .found 200 true row

/-- `GET /api/orders/transaction/:transactionId`:
`SELECT * FROM orders WHERE transaction_id = $1 AND user_id = $2` with
`$2 = req.user.userId`; an empty result set is answered with 404. -/
def getOrderByTransactionRoute (db : List OrderRow) (user : Claims) (transactionId : String) :
    OrderLookupResponse :=
  match (db.filter fun o => o.transaction_id == transactionId && o.user_id == user.userId).head? with
  | none => .notFound 404 false "Order not found"
  | some row => .found 200 true row

/-! ## Browser client (`client/lib/api.ts`)

localStorage token slots and JS string-or-nullish values are modelled
as `Option String`: on the read side `none` stands for an absent key,
`null`, or `undefined` — all falsy and not distinguished by any code
path here. On the write side `localStorage.setItem` only stores
strings: a runtime-`undefined` argument is coerced to the literal
string "undefined" (see `jsStringCoerce`), so a written slot is always
present. `fetch` outcomes are environment values.
-/

/-- The two localStorage slots read and written by the client. -/
structure TokenStorage where
  accessToken : Option String
  refreshToken : Option String
deriving DecidableEq

/-- JS truthiness of a string-or-nullish value: `undefined`, `null`
and the empty string are falsy. -/
def jsTruthyStr : Option String → Bool
  | some s => !(s == "")
  | none => false

/-- The `String(value)` coercion `localStorage.setItem` applies to a
non-string value before storing it: `undefined` becomes the literal
string "undefined". -/
def jsStringCoerce : Option String → String
  | some s => s
  | none => "undefined"

/-- `saveTokens(accessToken, refreshToken)`: `localStorage.setItem` on
both slots. The declared parameter type is `string`, but the runtime
value may be `undefined`; `setItem` coerces it to the string
"undefined", so both keys are present afterwards. -/
def saveTokens (accessToken refreshToken : Option String) : TokenStorage :=
  { accessToken := some (jsStringCoerce accessToken),
    refreshToken := some (jsStringCoerce refreshToken) }

/-- The `data` object of an `AuthResponse` as the client parses it. -/
structure ClientAuthData where
  accessToken : Option String
  refreshToken : Option String
deriving DecidableEq

/-- An `AuthResponse` body as the client parses it. -/
structure ClientAuthResponse where
  success : Bool
  message : String
  data : Option ClientAuthData
deriving DecidableEq

/-- Outcome of the client's call to the refresh endpoint: the fetch
rejected (network error), or a parsed response body came back. -/
inductive RefreshCallEnv where
  | threw
  | returned (result : ClientAuthResponse)
deriving DecidableEq

/-- What one run of `handleTokenRefresh` did. -/
structure RefreshAttempt where
  newAccessToken : Option String
  storage : TokenStorage
  invoked : Bool
  sent : Option String
deriving DecidableEq

/-- `handleTokenRefresh`: return null at once when no refresh token is
held (falsy slot); otherwise call the refresh endpoint with the held
token. On `result.success && result.data`, save both tokens from
`result.data` and return its `accessToken`; on any other response, or a
thrown fetch, return null. `storage` is the state of localStorage
afterwards, `invoked` whether the endpoint was called, `sent` the
refresh token it was called with. -/
def handleTokenRefresh (st : TokenStorage) (env : RefreshCallEnv) : RefreshAttempt :=
  match st.refreshToken with
  | none => ⟨none, st, false, none⟩
  | some rtv =>
    if rtv = "" then ⟨none, st, false, none⟩
    else
      match env with
      | .threw => ⟨none, st, true, some rtv⟩
      | .returned result =>
        match result.data with
        | some d =>
          if result.success then
            ⟨d.accessToken, saveTokens d.accessToken d.refreshToken, true, some rtv⟩
          else ⟨none, st, true, some rtv⟩
        | none => ⟨none, st, true, some rtv⟩

/-- A parsed JSON body of a payment-endpoint response, as far as the
client inspects it: the `expired` flag checked on 401, and a tag
standing for the whole payload that `response.json()` yields. -/
structure ClientHttpJson where
  expired : Bool
  tag : String
deriving DecidableEq

/-- One `fetch` response to the payment endpoint. -/
structure ClientFetchResp where
  status : Nat
  json : ClientHttpJson
deriving DecidableEq

/-- Environment of one run of the client's `processPayment`: the
response to the first call, the refresh-endpoint outcome (used only if
reached), and the response to the retry (used only if reached). -/
structure ProcessPaymentEnv where
  first : ClientFetchResp
  refreshCall : RefreshCallEnv
  retry : ClientFetchResp
deriving DecidableEq

/-- What `processPayment` gave back to its caller: a parsed JSON body,
or a thrown `Error` with its message. -/
inductive ClientOutcome where
  | json (tag : String)
  | thrown (message : String)
deriving DecidableEq

/-- Trace of one run of the client's `processPayment`: the outcome, how
many times the payment endpoint was called, whether and with which
token the refresh endpoint was invoked, the bearer token the retry call
carried (when a retry happened), and the final localStorage. -/
structure ClientTrace where
  outcome : ClientOutcome
  paymentCalls : Nat
  refreshInvoked : Bool
  refreshTokenSent : Option String
  retryToken : Option String
  storage : TokenStorage
deriving DecidableEq

/-- `processPayment` (client): throw when no access token is held; call
the payment endpoint; on a 401 whose body has a truthy `expired`, run
`handleTokenRefresh` and, when it yields a truthy token, retry exactly
once and return the retry's body unconditionally; on a 401 without the
flag, or when the refresh yields nothing, throw an authentication
failure; on a non-ok status other than 400, throw
`Payment service unavailable`; otherwise return the body. -/
def processPayment (st : TokenStorage) (env : ProcessPaymentEnv) : ClientTrace :=
  if !(jsTruthyStr st.accessToken) then
    ⟨.thrown "Authentication required. Please login first.", 0, false, none, none, st⟩
  else
    let resp := env.first
    if resp.status = 401 then
      if resp.json.expired then
        let att := handleTokenRefresh st env.refreshCall
        if jsTruthyStr att.newAccessToken then
          ⟨.json env.retry.json.tag, 2, att.invoked, att.sent, att.newAccessToken, att.storage⟩
        else
          ⟨.thrown "Authentication failed. Please login again.", 1,
           att.invoked, att.sent, none, att.storage⟩
      else
        ⟨.thrown "Authentication failed. Please login again.", 1, false, none, none, st⟩
    else if !(200 ≤ resp.status && resp.status < 300) && resp.status ≠ 400 then
      ⟨.thrown "Payment service unavailable", 1, false, none, none, st⟩
    else
      ⟨.json resp.json.tag, 1, false, none, none, st⟩

/-! ## Claims -/

/-- C8: Token round-trip — for every userId `u` and email `e`,
verifying an access token issued for `(u, e)` immediately after
issuance succeeds with claims `{userId: u, email: e}`, yielding
neither an Expired nor an Invalid error. -/
theorem token_roundtrip (secret : String) (now : Nat) (u : Nat) (e : String) :
    jwtVerify secret now (issueAccessToken secret now u e) = .ok ⟨u, e⟩ := by
  have h : ¬(now + 3600 ≤ now) := by omega
  simp [jwtVerify, issueAccessToken, signToken, h]

/-- C4: Token verification distinguishes expiry from invalidity — a
syntactically valid token whose expiry has elapsed yields the Expired
outcome (HTTP 401 with an explicit `expired: true` flag), while a token
with a bad signature or malformed structure yields the Invalid outcome
(a distinct response with no `expired` flag), so the refresh
coordinator can branch on the two outcomes. -/
theorem auth_expired_vs_invalid (secret : String) (now : Nat) (st : SignedToken) (raw : String) :
    (st.sig = signature secret st.claims st.expiresAt → st.expiresAt ≤ now →
      authenticateToken secret now (some (.wellFormed st)) =
        .reject ⟨401, false, "Access token expired", some true⟩)
    ∧ (st.sig ≠ signature secret st.claims st.expiresAt →
      authenticateToken secret now (some (.wellFormed st)) =
        .reject ⟨403, false, "Invalid access token", none⟩)
    ∧ (authenticateToken secret now (some (.malformed raw)) =
        .reject ⟨403, false, "Invalid access token", none⟩)
    ∧ (AuthRejectBody.mk 401 false "Access token expired" (some true) ≠
        ⟨403, false, "Invalid access token", none⟩) := by
  refine ⟨fun hsig hexp => ?_, fun hsig => ?_, ?_, by decide⟩
  · simp [authenticateToken, jwtVerify, hsig, hexp]
  · simp [authenticateToken, jwtVerify, hsig]
  · simp [authenticateToken, jwtVerify]

/-- Witness for C4 at concrete inputs: a correctly signed token already
at its expiry is rejected 401 with the flag; the same token with a
zeroed signature is rejected 403 without it. -/
theorem auth_expired_vs_invalid_witness :
    authenticateToken "s" 10 (some (.wellFormed (signToken "s" ⟨1, "a"⟩ 10))) =
      .reject ⟨401, false, "Access token expired", some true⟩
    ∧ authenticateToken "s" 10 (some (.wellFormed ⟨⟨1, "a"⟩, 10, 0⟩)) =
      .reject ⟨403, false, "Invalid access token", none⟩ :=
  ⟨(auth_expired_vs_invalid "s" 10 (signToken "s" ⟨1, "a"⟩ 10) "x").1 rfl (by decide),
   (auth_expired_vs_invalid "s" 10 ⟨⟨1, "a"⟩, 10, 0⟩ "x").2.1 (by decide)⟩

/-- C5: The refresh route, given a refresh token that verifies, issues
a new access token whose `{userId, email}` claims equal the refresh
token's claims, and re-issues nothing else: the response `data` holds
no refresh token, and since the handler is a pure function of the
supplied token the original token's expiry is untouched — the success
case holds at every instant `now` before the token's original
`expiresAt`, so repeated refresh calls against the same refresh token
keep succeeding until that expiry elapses. Every verification failure
(elapsed expiry, bad signature, malformed token) yields the 500 error
response instead. -/
theorem refresh_reissues_access_only (secret : String) (st : SignedToken) (now : Nat)
    (bad : SignedToken) (raw : String) :
    (st.sig = signature secret st.claims st.expiresAt → now < st.expiresAt →
      refreshTokenRoute secret now (.wellFormed st) =
        { status := 200, success := true, message := "Token refreshed successfully",
          data := some { accessToken :=
                           some (issueAccessToken secret now st.claims.userId st.claims.email),
                         refreshToken := none } })
    ∧ (st.sig = signature secret st.claims st.expiresAt → st.expiresAt ≤ now →
      refreshTokenRoute secret now (.wellFormed st) =
        ⟨500, false, "Failed to refresh token", none⟩)
    ∧ (bad.sig ≠ signature secret bad.claims bad.expiresAt →
      refreshTokenRoute secret now (.wellFormed bad) =
        ⟨500, false, "Failed to refresh token", none⟩)
    ∧ (refreshTokenRoute secret now (.malformed raw) =
        ⟨500, false, "Failed to refresh token", none⟩) := by
  refine ⟨fun hsig hlt => ?_, fun hsig hexp => ?_, fun hsig => ?_, ?_⟩
  · simp [refreshTokenRoute, jwtVerify, hsig, Nat.not_le.mpr hlt]
  · simp [refreshTokenRoute, jwtVerify, hsig, hexp]
  · simp [refreshTokenRoute, jwtVerify, hsig]
  · simp [refreshTokenRoute, jwtVerify]

/-- Witness for C5 at concrete inputs: a valid refresh token expiring
at 100 refreshes successfully at instants 0 and 99 (same token, no
rotation in between) and fails at 100. -/
theorem refresh_reissues_access_only_witness :
    refreshTokenRoute "s" 0 (.wellFormed (signToken "s" ⟨1, "a"⟩ 100)) =
      { status := 200, success := true, message := "Token refreshed successfully",
        data := some { accessToken := some (issueAccessToken "s" 0 1 "a"),
                       refreshToken := none } }
    ∧ refreshTokenRoute "s" 99 (.wellFormed (signToken "s" ⟨1, "a"⟩ 100)) =
      { status := 200, success := true, message := "Token refreshed successfully",
        data := some { accessToken := some (issueAccessToken "s" 99 1 "a"),
                       refreshToken := none } }
    ∧ refreshTokenRoute "s" 100 (.wellFormed (signToken "s" ⟨1, "a"⟩ 100)) =
      ⟨500, false, "Failed to refresh token", none⟩ :=
  ⟨(refresh_reissues_access_only "s" (signToken "s" ⟨1, "a"⟩ 100) 0
      (signToken "s" ⟨1, "a"⟩ 100) "x").1 rfl (by decide),
   (refresh_reissues_access_only "s" (signToken "s" ⟨1, "a"⟩ 100) 99
      (signToken "s" ⟨1, "a"⟩ 100) "x").1 rfl (by decide),
   (refresh_reissues_access_only "s" (signToken "s" ⟨1, "a"⟩ 100) 100
      (signToken "s" ⟨1, "a"⟩ 100) "x").2.1 rfl (by decide)⟩

/-- C1: When the gateway call returns Failure the saga aborts
immediately — the Order Store is not called, the Notification
Dispatcher is not called, and the caller receives a failure whose HTTP
status is the gateway's reported status code and whose `error` body is
the gateway's error verbatim. -/
theorem gateway_failure_aborts_saga (user : Claims) (body : PaymentBody) (t : Int)
    (nowMs rand : Nat) (randStr : String) (env : PaymentRouteEnv) (sc : Nat) (err : String)
    (htotal : body.total = some t) (hpos : 0 < t)
    (hfail : processMpesaPayment env.mpesa = .failure sc err) :
    (paymentRoute user body nowMs rand randStr env).1 =
      .fail sc false "Payment failed" (some err)
    ∧ (paymentRoute user body nowMs rand randStr env).2.orderCalled = false
    ∧ (paymentRoute user body nowMs rand randStr env).2.emailCalled = false := by
  have h0 : ¬(t = 0) := by omega
  have h1 : ¬(t ≤ 0) := by omega
  simp [paymentRoute, htotal, h0, h1, hfail]

/-- Witness for C1: a run with total 50 whose gateway call is rejected
with a 422 response body. -/
theorem gateway_failure_aborts_saga_witness :
    (paymentRoute ⟨7, "u@x"⟩ ⟨some [], some 50, none⟩ 5 6 "0.abc"
        ⟨.err (some 422) (some "INS-13") "Request failed", .ok "ORD1", .ok, (1, 0, 0, 1)⟩).1 =
      .fail 422 false "Payment failed" (some "INS-13")
    ∧ (paymentRoute ⟨7, "u@x"⟩ ⟨some [], some 50, none⟩ 5 6 "0.abc"
        ⟨.err (some 422) (some "INS-13") "Request failed", .ok "ORD1", .ok, (1, 0, 0, 1)⟩).2.orderCalled
        = false :=
  ⟨(gateway_failure_aborts_saga ⟨7, "u@x"⟩ ⟨some [], some 50, none⟩ 50 5 6 "0.abc"
      ⟨.err (some 422) (some "INS-13") "Request failed", .ok "ORD1", .ok, (1, 0, 0, 1)⟩
      422 "INS-13" rfl (by decide) rfl).1,
   (gateway_failure_aborts_saga ⟨7, "u@x"⟩ ⟨some [], some 50, none⟩ 50 5 6 "0.abc"
      ⟨.err (some 422) (some "INS-13") "Request failed", .ok "ORD1", .ok, (1, 0, 0, 1)⟩
      422 "INS-13" rfl (by decide) rfl).2.1⟩

/-- C2: When the gateway call succeeds (201) but the Order Store create
call fails, the response still reports `success: true` with `orderId`
absent from its data; when the Order Store call succeeds, the returned
`orderId` is attached to the response data. -/
theorem order_failure_not_fatal (user : Claims) (body : PaymentBody) (t : Int)
    (nowMs rand : Nat) (randStr : String) (env : PaymentRouteEnv) (md : MpesaData)
    (htotal : body.total = some t) (hpos : 0 < t)
    (hgw : processMpesaPayment env.mpesa = .success 201 md) :
    (∀ m, env.order = .err m →
      (paymentRoute user body nowMs rand randStr env).1 =
        .ok 200 true "Payment processed successfully"
          { transactionId := md.output_TransactionID,
            conversationId := md.output_ConversationID,
            responseCode := md.output_ResponseCode,
            responseDesc := md.output_ResponseDesc,
            transactionReference := generateTransactionRef nowMs rand,
            thirdPartyReference := generateThirdPartyRef randStr,
            amount := t, cart := body.cart, orderId := none,
            performance := env.durations })
    ∧ (∀ oid, env.order = .ok oid →
      (paymentRoute user body nowMs rand randStr env).1 =
        .ok 200 true "Payment processed successfully"
          { transactionId := md.output_TransactionID,
            conversationId := md.output_ConversationID,
            responseCode := md.output_ResponseCode,
            responseDesc := md.output_ResponseDesc,
            transactionReference := generateTransactionRef nowMs rand,
            thirdPartyReference := generateThirdPartyRef randStr,
            amount := t, cart := body.cart, orderId := some oid,
            performance := env.durations }) := by
  have h0 : ¬(t = 0) := by omega
  have h1 : ¬(t ≤ 0) := by omega
  constructor
  · intro m hord
    simp [paymentRoute, htotal, h0, h1, hgw, hord, createOrder]
  · intro oid hord
    simp [paymentRoute, htotal, h0, h1, hgw, hord, createOrder]

/-- Witness for C2: one run whose order call is rejected, answered
`success: true` without `orderId`; one run whose order call returns
ORD9, answered with `orderId := ORD9`. -/
theorem order_failure_not_fatal_witness :
    (paymentRoute ⟨7, "u@x"⟩ ⟨some [], some 50, none⟩ 5 6 "0.abc"
        ⟨.ok 201 ⟨"MP1", "CV1", "INS-0", "ok"⟩, .err "timeout", .ok, (1, 0, 0, 1)⟩).1 =
      .ok 200 true "Payment processed successfully"
        { transactionId := "MP1", conversationId := "CV1", responseCode := "INS-0",
          responseDesc := "ok", transactionReference := generateTransactionRef 5 6,
          thirdPartyReference := generateThirdPartyRef "0.abc",
          amount := 50, cart := some [], orderId := none, performance := (1, 0, 0, 1) }
    ∧ (paymentRoute ⟨7, "u@x"⟩ ⟨some [], some 50, none⟩ 5 6 "0.abc"
        ⟨.ok 201 ⟨"MP1", "CV1", "INS-0", "ok"⟩, .ok "ORD9", .ok, (1, 0, 0, 1)⟩).1 =
      .ok 200 true "Payment processed successfully"
        { transactionId := "MP1", conversationId := "CV1", responseCode := "INS-0",
          responseDesc := "ok", transactionReference := generateTransactionRef 5 6,
          thirdPartyReference := generateThirdPartyRef "0.abc",
          amount := 50, cart := some [], orderId := some "ORD9", performance := (1, 0, 0, 1) } :=
  ⟨(order_failure_not_fatal ⟨7, "u@x"⟩ ⟨some [], some 50, none⟩ 50 5 6 "0.abc"
      ⟨.ok 201 ⟨"MP1", "CV1", "INS-0", "ok"⟩, .err "timeout", .ok, (1, 0, 0, 1)⟩
      ⟨"MP1", "CV1", "INS-0", "ok"⟩ rfl (by decide) rfl).1 "timeout" rfl,
   (order_failure_not_fatal ⟨7, "u@x"⟩ ⟨some [], some 50, none⟩ 50 5 6 "0.abc"
      ⟨.ok 201 ⟨"MP1", "CV1", "INS-0", "ok"⟩, .ok "ORD9", .ok, (1, 0, 0, 1)⟩
      ⟨"MP1", "CV1", "INS-0", "ok"⟩ rfl (by decide) rfl).2 "ORD9" rfl⟩

/-- C3: A payment request whose total is ≤ 0 is answered with a 400
validation error (`success: false`) and no downstream call is made:
neither the gateway client, nor the Order Store, nor the Notification
Dispatcher is invoked. -/
theorem nonpositive_total_rejected (user : Claims) (body : PaymentBody) (t : Int)
    (nowMs rand : Nat) (randStr : String) (env : PaymentRouteEnv)
    (htotal : body.total = some t) (hle : t ≤ 0) :
    paymentRoute user body nowMs rand randStr env =
      (.fail 400 false "Invalid or missing total amount" none,
       ⟨false, false, false, none, none, none⟩) := by
  simp [paymentRoute, htotal, hle]

/-- Witness for C3 at total = -3. -/
theorem nonpositive_total_rejected_witness :
    paymentRoute ⟨7, "u@x"⟩ ⟨some [], some (-3), none⟩ 5 6 "0.abc"
        ⟨.ok 201 ⟨"MP1", "CV1", "INS-0", "ok"⟩, .ok "ORD9", .ok, (1, 0, 0, 1)⟩ =
      (.fail 400 false "Invalid or missing total amount" none,
       ⟨false, false, false, none, none, none⟩) :=
  nonpositive_total_rejected ⟨7, "u@x"⟩ ⟨some [], some (-3), none⟩ (-3) 5 6 "0.abc"
    ⟨.ok 201 ⟨"MP1", "CV1", "INS-0", "ok"⟩, .ok "ORD9", .ok, (1, 0, 0, 1)⟩ rfl (by decide)

/-- C6: Every order read (list by user, get by orderId, get by
transactionId) is scoped to the authenticated caller's userId: every
order returned carries the caller's userId, and a lookup of an
identifier whose matching rows all belong to other users is answered
404 Not Found, never with another user's data — even when the
identifier exists in the store. -/
theorem order_reads_scoped_to_caller (db : List OrderRow) (user : Claims)
    (orderId transactionId : String) :
    (∀ o ∈ (getOrdersRoute db user).data, o.user_id = user.userId)
    ∧ (∀ status success o, getOrderByIdRoute db user orderId = .found status success o →
        o.user_id = user.userId ∧ o.order_id = orderId ∧ o ∈ db)
    ∧ ((∀ o ∈ db, o.order_id = orderId → o.user_id ≠ user.userId) →
        getOrderByIdRoute db user orderId = .notFound 404 false "Order not found")
    ∧ (∀ status success o, getOrderByTransactionRoute db user transactionId =
          .found status success o →
        o.user_id = user.userId ∧ o.transaction_id = transactionId ∧ o ∈ db)
    ∧ ((∀ o ∈ db, o.transaction_id = transactionId → o.user_id ≠ user.userId) →
        getOrderByTransactionRoute db user transactionId =
          .notFound 404 false "Order not found") := by
  refine ⟨?_, ?_, ?_, ?_, ?_⟩
  · intro o ho
    simp only [getOrdersRoute, List.mem_mergeSort, List.mem_filter, beq_iff_eq] at ho
    exact ho.2
  · intro status success o hfound
    unfold getOrderByIdRoute at hfound
    cases hfil : (db.filter fun o => o.order_id == orderId && o.user_id == user.userId).head? with
    | none => rw [hfil] at hfound; exact absurd hfound (by simp)
    | some row =>
      rw [hfil] at hfound
      have hmem : row ∈ db.filter fun o => o.order_id == orderId && o.user_id == user.userId :=
        List.mem_of_mem_head? (by rw [hfil]; exact rfl)
      simp only [List.mem_filter, Bool.and_eq_true, beq_iff_eq] at hmem
      cases hfound
      exact ⟨hmem.2.2, hmem.2.1, hmem.1⟩
  · intro hcross
    unfold getOrderByIdRoute
    have hnil : (db.filter fun o => o.order_id == orderId && o.user_id == user.userId) = [] := by
      rw [List.filter_eq_nil_iff]
      intro o ho
      simp only [Bool.and_eq_true, beq_iff_eq, not_and]
      exact fun hid => hcross o ho hid
    rw [hnil]
    rfl
  · intro status success o hfound
    unfold getOrderByTransactionRoute at hfound
    cases hfil :
        (db.filter fun o => o.transaction_id == transactionId && o.user_id == user.userId).head?
        with
    | none => rw [hfil] at hfound; exact absurd hfound (by simp)
    | some row =>
      rw [hfil] at hfound
      have hmem :
          row ∈ db.filter fun o => o.transaction_id == transactionId
            && o.user_id == user.userId :=
        List.mem_of_mem_head? (by rw [hfil]; exact rfl)
      simp only [List.mem_filter, Bool.and_eq_true, beq_iff_eq] at hmem
      cases hfound
      exact ⟨hmem.2.2, hmem.2.1, hmem.1⟩
  · intro hcross
    unfold getOrderByTransactionRoute
    have hnil :
        (db.filter fun o => o.transaction_id == transactionId && o.user_id == user.userId)
          = [] := by
      rw [List.filter_eq_nil_iff]
      intro o ho
      simp only [Bool.and_eq_true, beq_iff_eq, not_and]
      exact fun hid => hcross o ho hid
    rw [hnil]
    rfl

/-- One concrete order row belonging to user 2, used by the C6
witness. -/
def otherUsersOrder : OrderRow :=
  { order_id := "ORD1", user_id := 2, transaction_id := "MP1", conversation_id := "CV1",
    transaction_reference := "TXN11", third_party_reference := "AB12CD34EF",
    amount := 50, cart := [], customer_phone := "258845760448", status := "paid",
    created_at := 100, updated_at := 100 }

/-- Witness for C6: with a store holding only user 2's order ORD1
(transaction MP1), caller 1's lookups of ORD1 and MP1 are both
answered 404, although both identifiers exist in the store. -/
theorem order_reads_scoped_to_caller_witness :
    getOrderByIdRoute [otherUsersOrder] ⟨1, "a@b"⟩ "ORD1" =
      .notFound 404 false "Order not found"
    ∧ getOrderByTransactionRoute [otherUsersOrder] ⟨1, "a@b"⟩ "MP1" =
      .notFound 404 false "Order not found" :=
  ⟨(order_reads_scoped_to_caller [otherUsersOrder] ⟨1, "a@b"⟩ "ORD1" "MP1").2.2.1
     (by intro o ho hid; simp only [List.mem_singleton] at ho; rw [ho]; decide),
   (order_reads_scoped_to_caller [otherUsersOrder] ⟨1, "a@b"⟩ "ORD1" "MP1").2.2.2.2
     (by intro o ho hid; simp only [List.mem_singleton] at ho; rw [ho]; decide)⟩

/-! Helper lemmas about the client coordinator, shared by the
refresh-coordinator claims. -/

/-- Under a truthy access token and a 401-with-`expired` first response,
`processPayment` reduces to the refresh-and-maybe-retry step. -/
theorem processPayment_expired_eq (st : TokenStorage) (env : ProcessPaymentEnv)
    (hat : jsTruthyStr st.accessToken = true) (h401 : env.first.status = 401)
    (hexp : env.first.json.expired = true) :
    processPayment st env =
      if jsTruthyStr (handleTokenRefresh st env.refreshCall).newAccessToken then
        ⟨.json env.retry.json.tag, 2, (handleTokenRefresh st env.refreshCall).invoked,
         (handleTokenRefresh st env.refreshCall).sent,
         (handleTokenRefresh st env.refreshCall).newAccessToken,
         (handleTokenRefresh st env.refreshCall).storage⟩
      else
        ⟨.thrown "Authentication failed. Please login again.", 1,
         (handleTokenRefresh st env.refreshCall).invoked,
         (handleTokenRefresh st env.refreshCall).sent, none,
         (handleTokenRefresh st env.refreshCall).storage⟩ := by
  simp [processPayment, hat, h401, hexp]

/-- A truthy held refresh token is exactly what gets sent. -/
theorem handleTokenRefresh_sent_of_truthy (st : TokenStorage) (rtv : String)
    (env : RefreshCallEnv) (hst : st.refreshToken = some rtv) (hne : rtv ≠ "") :
    (handleTokenRefresh st env).sent = some rtv := by
  cases env with
  | threw => simp [handleTokenRefresh, hst, hne]
  | returned r =>
    cases hd : r.data with
    | none => simp [handleTokenRefresh, hst, hne, hd]
    | some d => by_cases hs : r.success <;> simp [handleTokenRefresh, hst, hne, hd, hs]

/-- With a falsy refresh-token slot, `handleTokenRefresh` returns null
at once without calling the endpoint or touching storage. -/
theorem handleTokenRefresh_not_truthy (st : TokenStorage) (env : RefreshCallEnv)
    (hrt : jsTruthyStr st.refreshToken = false) :
    handleTokenRefresh st env = ⟨none, st, false, none⟩ := by
  cases hst : st.refreshToken with
  | none => simp [handleTokenRefresh, hst]
  | some rtv =>
    have he : rtv = "" := by rw [hst] at hrt; simpa [jsTruthyStr] using hrt
    simp [handleTokenRefresh, hst, he]

/-- A successful refresh response with a `data` object saves both of
its token fields and hands back its access token. -/
theorem handleTokenRefresh_success (st : TokenStorage) (rtv : String)
    (r : ClientAuthResponse) (d : ClientAuthData) (hst : st.refreshToken = some rtv)
    (hne : rtv ≠ "") (hd : r.data = some d) (hs : r.success = true) :
    handleTokenRefresh st (.returned r) =
      ⟨d.accessToken, saveTokens d.accessToken d.refreshToken, true, some rtv⟩ := by
  simp [handleTokenRefresh, hst, hne, hd, hs]

/-- A thrown refresh fetch never yields a token. -/
theorem handleTokenRefresh_newToken_of_threw (st : TokenStorage) :
    (handleTokenRefresh st .threw).newAccessToken = none := by
  cases hst : st.refreshToken with
  | none => simp [handleTokenRefresh, hst]
  | some rtv => by_cases hne : rtv = "" <;> simp [handleTokenRefresh, hst, hne]

/-- An unsuccessful refresh response never yields a token. -/
theorem handleTokenRefresh_newToken_of_failure (st : TokenStorage)
    (r : ClientAuthResponse) (hs : r.success = false) :
    (handleTokenRefresh st (.returned r)).newAccessToken = none := by
  cases hst : st.refreshToken with
  | none => simp [handleTokenRefresh, hst]
  | some rtv =>
    by_cases hne : rtv = ""
    · simp [handleTokenRefresh, hst, hne]
    · cases hd : r.data with
      | none => simp [handleTokenRefresh, hst, hne, hd]
      | some d => simp [handleTokenRefresh, hst, hne, hd, hs]

/-- C7: On an Expired signal (401 with `expired: true`), the client
coordinator invokes the refresh endpoint with the locally held refresh
token; on a successful refresh it stores the new tokens and retries the
original call exactly once with the new access token as bearer (two
payment-endpoint calls in total),
returning the retry's body; when no refresh token is held the endpoint
is not invoked and an authentication failure is thrown after the single
original call; whenever the refresh yields no usable token (thrown
fetch or unsuccessful response) the same failure is thrown with no
retry; and in no execution whatsoever is the payment endpoint called
more than twice. -/
theorem refresh_coordinator_retries_once (st : TokenStorage) (env : ProcessPaymentEnv)
    (hat : jsTruthyStr st.accessToken = true)
    (h401 : env.first.status = 401)
    (hexp : env.first.json.expired = true) :
    (jsTruthyStr st.refreshToken = true →
      (processPayment st env).refreshTokenSent = st.refreshToken)
    ∧ (∀ r d, env.refreshCall = .returned r → r.data = some d → r.success = true →
        jsTruthyStr d.accessToken = true → jsTruthyStr st.refreshToken = true →
        (processPayment st env).storage = saveTokens d.accessToken d.refreshToken
        ∧ (processPayment st env).paymentCalls = 2
        ∧ (processPayment st env).retryToken = d.accessToken
        ∧ (processPayment st env).outcome = .json env.retry.json.tag)
    ∧ (jsTruthyStr st.refreshToken = false →
        (processPayment st env).outcome = .thrown "Authentication failed. Please login again."
        ∧ (processPayment st env).paymentCalls = 1
        ∧ (processPayment st env).refreshInvoked = false)
    ∧ (jsTruthyStr (handleTokenRefresh st env.refreshCall).newAccessToken = false →
        (processPayment st env).outcome = .thrown "Authentication failed. Please login again."
        ∧ (processPayment st env).paymentCalls = 1)
    ∧ (env.refreshCall = .threw →
        jsTruthyStr (handleTokenRefresh st env.refreshCall).newAccessToken = false)
    ∧ (∀ r, env.refreshCall = .returned r → r.success = false →
        jsTruthyStr (handleTokenRefresh st env.refreshCall).newAccessToken = false)
    ∧ (∀ st2 env2, (processPayment st2 env2).paymentCalls ≤ 2) := by
  refine ⟨?_, ?_, ?_, ?_, ?_, ?_, ?_⟩
  · intro hrt
    cases hst : st.refreshToken with
    | none => rw [hst] at hrt; exact absurd hrt (by simp [jsTruthyStr])
    | some rtv =>
      have hne : rtv ≠ "" := by rw [hst] at hrt; simpa [jsTruthyStr] using hrt
      have hsent := handleTokenRefresh_sent_of_truthy st rtv env.refreshCall hst hne
      rw [processPayment_expired_eq st env hat h401 hexp]
      split <;> simp [hsent, hst]
  · intro r d henv hd hs hacc hrt
    cases hst : st.refreshToken with
    | none => rw [hst] at hrt; exact absurd hrt (by simp [jsTruthyStr])
    | some rtv =>
      have hne : rtv ≠ "" := by rw [hst] at hrt; simpa [jsTruthyStr] using hrt
      have hatt := handleTokenRefresh_success st rtv r d hst hne hd hs
      rw [processPayment_expired_eq st env hat h401 hexp, henv, hatt]
      simp [hacc]
  · intro hrt
    have hatt := handleTokenRefresh_not_truthy st env.refreshCall hrt
    rw [processPayment_expired_eq st env hat h401 hexp, hatt]
    simp [jsTruthyStr]
  · intro hfailed
    rw [processPayment_expired_eq st env hat h401 hexp]
    simp [hfailed]
  · intro henv
    rw [henv, handleTokenRefresh_newToken_of_threw]
    simp [jsTruthyStr]
  · intro r henv hs
    rw [henv, handleTokenRefresh_newToken_of_failure st r hs]
    simp [jsTruthyStr]
  · intro st2 env2
    unfold processPayment
    dsimp only
    split
    · simp
    · split
      · split
        · split <;> simp
        · simp
      · split <;> simp

/-- Witness for C7: held tokens `oldAT`/`oldRT`, a first 401 response
flagged expired, a successful refresh yielding `newAT`, and a 200
retry: the payment endpoint is called twice, the retry's body is
returned, and the refresh endpoint was invoked with `oldRT`. -/
theorem refresh_coordinator_retries_once_witness :
    (processPayment ⟨some "oldAT", some "oldRT"⟩
        ⟨⟨401, ⟨true, "e1"⟩⟩,
         .returned ⟨true, "Token refreshed successfully", some ⟨some "newAT", none⟩⟩,
         ⟨200, ⟨false, "paid"⟩⟩⟩).paymentCalls = 2
    ∧ (processPayment ⟨some "oldAT", some "oldRT"⟩
        ⟨⟨401, ⟨true, "e1"⟩⟩,
         .returned ⟨true, "Token refreshed successfully", some ⟨some "newAT", none⟩⟩,
         ⟨200, ⟨false, "paid"⟩⟩⟩).outcome = .json "paid"
    ∧ (processPayment ⟨some "oldAT", some "oldRT"⟩
        ⟨⟨401, ⟨true, "e1"⟩⟩,
         .returned ⟨true, "Token refreshed successfully", some ⟨some "newAT", none⟩⟩,
         ⟨200, ⟨false, "paid"⟩⟩⟩).refreshTokenSent = some "oldRT" :=
  ⟨((refresh_coordinator_retries_once ⟨some "oldAT", some "oldRT"⟩
      ⟨⟨401, ⟨true, "e1"⟩⟩,
       .returned ⟨true, "Token refreshed successfully", some ⟨some "newAT", none⟩⟩,
       ⟨200, ⟨false, "paid"⟩⟩⟩ (by decide) rfl rfl).2.1
      ⟨true, "Token refreshed successfully", some ⟨some "newAT", none⟩⟩
      ⟨some "newAT", none⟩ rfl rfl rfl (by decide) (by decide)).2.1,
   ((refresh_coordinator_retries_once ⟨some "oldAT", some "oldRT"⟩
      ⟨⟨401, ⟨true, "e1"⟩⟩,
       .returned ⟨true, "Token refreshed successfully", some ⟨some "newAT", none⟩⟩,
       ⟨200, ⟨false, "paid"⟩⟩⟩ (by decide) rfl rfl).2.1
      ⟨true, "Token refreshed successfully", some ⟨some "newAT", none⟩⟩
      ⟨some "newAT", none⟩ rfl rfl rfl (by decide) (by decide)).2.2.2,
   (refresh_coordinator_retries_once ⟨some "oldAT", some "oldRT"⟩
      ⟨⟨401, ⟨true, "e1"⟩⟩,
       .returned ⟨true, "Token refreshed successfully", some ⟨some "newAT", none⟩⟩,
       ⟨200, ⟨false, "paid"⟩⟩⟩ (by decide) rfl rfl).1 (by decide)⟩

/-- Subsequent refresh cycles always invoke the endpoint when the held
slot is a truthy string, whatever the endpoint then answers. -/
theorem handleTokenRefresh_invoked_of_truthy (st : TokenStorage) (rtv : String)
    (env : RefreshCallEnv) (hst : st.refreshToken = some rtv) (hne : rtv ≠ "") :
    (handleTokenRefresh st env).invoked = true := by
  cases env with
  | threw => simp [handleTokenRefresh, hst, hne]
  | returned r =>
    cases hd : r.data with
    | none => simp [handleTokenRefresh, hst, hne, hd]
    | some d => by_cases hs : r.success <;> simp [handleTokenRefresh, hst, hne, hd, hs]

/-- C10 counterexample: the claim that after a successful transparent
refresh the stored refresh token is the absent (`undefined`) value —
and hence that a later Expired-triggered cycle finds no refresh token —
is false on the code. After the concrete refresh below,
`localStorage.setItem` has coerced the runtime-`undefined`
`result.data.refreshToken` to the present, truthy string "undefined",
and the next `handleTokenRefresh` run does invoke the refresh endpoint,
sending that string. -/
theorem refresh_token_slot_not_absent :
    (processPayment ⟨some "oldAT", some "oldRT"⟩
        ⟨⟨401, ⟨true, "e1"⟩⟩, .returned ⟨true, "m", some ⟨some "newAT", none⟩⟩,
         ⟨200, ⟨false, "paid"⟩⟩⟩).storage.refreshToken = some "undefined"
    ∧ (processPayment ⟨some "oldAT", some "oldRT"⟩
        ⟨⟨401, ⟨true, "e1"⟩⟩, .returned ⟨true, "m", some ⟨some "newAT", none⟩⟩,
         ⟨200, ⟨false, "paid"⟩⟩⟩).storage.refreshToken ≠ none
    ∧ (handleTokenRefresh
        (processPayment ⟨some "oldAT", some "oldRT"⟩
          ⟨⟨401, ⟨true, "e1"⟩⟩, .returned ⟨true, "m", some ⟨some "newAT", none⟩⟩,
           ⟨200, ⟨false, "paid"⟩⟩⟩).storage
        (.returned ⟨false, "x", none⟩)).invoked = true
    ∧ (handleTokenRefresh
        (processPayment ⟨some "oldAT", some "oldRT"⟩
          ⟨⟨401, ⟨true, "e1"⟩⟩, .returned ⟨true, "m", some ⟨some "newAT", none⟩⟩,
           ⟨200, ⟨false, "paid"⟩⟩⟩).storage
        (.returned ⟨false, "x", none⟩)).sent = some "undefined" := by
  decide

/-- C10 (amended): after a successful transparent refresh the locally
stored refresh token is no longer the original one — the coordinator
writes both localStorage slots from the refresh response, whose `data`
holds only an access token and no `refreshToken` field (as the server's
refresh route guarantees), so `setItem` coerces the `undefined` value
and the slot holds the literal string "undefined", a present truthy
value distinct from the original; a subsequent Expired-triggered
refresh cycle therefore does invoke the refresh endpoint, but sends the
string "undefined" and never the original refresh token. -/
theorem refresh_replaces_refresh_token (st : TokenStorage) (env : ProcessPaymentEnv)
    (rt ntk msg : String)
    (hat : jsTruthyStr st.accessToken = true)
    (hrt : st.refreshToken = some rt) (hrtne : rt ≠ "") (hrtu : rt ≠ "undefined")
    (h401 : env.first.status = 401) (hexp : env.first.json.expired = true)
    (henv : env.refreshCall = .returned ⟨true, msg, some ⟨some ntk, none⟩⟩)
    (hn : ntk ≠ "") :
    (processPayment st env).storage.accessToken = some ntk
    ∧ (processPayment st env).storage.refreshToken = some "undefined"
    ∧ (processPayment st env).storage.refreshToken ≠ some rt
    ∧ (∀ env2, (handleTokenRefresh (processPayment st env).storage env2).invoked = true
        ∧ (handleTokenRefresh (processPayment st env).storage env2).sent = some "undefined"
        ∧ (handleTokenRefresh (processPayment st env).storage env2).sent ≠ some rt)
    ∧ (∀ secret now tok d, (refreshTokenRoute secret now tok).data = some d →
        d.refreshToken = none) := by
  have hatt := handleTokenRefresh_success st rt ⟨true, msg, some ⟨some ntk, none⟩⟩
    ⟨some ntk, none⟩ hrt hrtne rfl rfl
  have hpp : (processPayment st env).storage = saveTokens (some ntk) none := by
    rw [processPayment_expired_eq st env hat h401 hexp, henv, hatt]
    simp [jsTruthyStr, hn]
  have hslot : (saveTokens (some ntk) none).refreshToken = some "undefined" := rfl
  refine ⟨?_, ?_, ?_, ?_, ?_⟩
  · rw [hpp]; rfl
  · rw [hpp]; exact hslot
  · rw [hpp, hslot]
    intro hcontra
    injection hcontra with h
    exact hrtu h.symm
  · intro env2
    rw [hpp]
    refine ⟨handleTokenRefresh_invoked_of_truthy _ "undefined" env2 hslot (by decide),
      handleTokenRefresh_sent_of_truthy _ "undefined" env2 hslot (by decide), ?_⟩
    rw [handleTokenRefresh_sent_of_truthy _ "undefined" env2 hslot (by decide)]
    intro hcontra
    injection hcontra with h
    exact hrtu h.symm
  · intro secret now tok d hd
    unfold refreshTokenRoute at hd
    cases hv : jwtVerify secret now tok with
    | ok c =>
      rw [hv] at hd
      injection hd with h
      rw [← h]
    | expired => rw [hv] at hd; exact absurd hd (by simp)
    | invalid => rw [hv] at hd; exact absurd hd (by simp)

/-- Witness for the amended C10: after the refresh in the C7 scenario
the stored refresh slot holds the string "undefined" rather than
`oldRT`, and the next refresh cycle invokes the endpoint with it. -/
theorem refresh_replaces_refresh_token_witness :
    (processPayment ⟨some "oldAT", some "oldRT"⟩
        ⟨⟨401, ⟨true, "e1"⟩⟩, .returned ⟨true, "n", some ⟨some "newAT", none⟩⟩,
         ⟨200, ⟨false, "paid"⟩⟩⟩).storage.refreshToken = some "undefined"
    ∧ (processPayment ⟨some "oldAT", some "oldRT"⟩
        ⟨⟨401, ⟨true, "e1"⟩⟩, .returned ⟨true, "n", some ⟨some "newAT", none⟩⟩,
         ⟨200, ⟨false, "paid"⟩⟩⟩).storage.refreshToken ≠ some "oldRT"
    ∧ (handleTokenRefresh
        (processPayment ⟨some "oldAT", some "oldRT"⟩
          ⟨⟨401, ⟨true, "e1"⟩⟩, .returned ⟨true, "n", some ⟨some "newAT", none⟩⟩,
           ⟨200, ⟨false, "paid"⟩⟩⟩).storage (.returned ⟨false, "x", none⟩)).invoked = true :=
  ⟨(refresh_replaces_refresh_token ⟨some "oldAT", some "oldRT"⟩
      ⟨⟨401, ⟨true, "e1"⟩⟩, .returned ⟨true, "n", some ⟨some "newAT", none⟩⟩,
       ⟨200, ⟨false, "paid"⟩⟩⟩ "oldRT" "newAT" "n" (by decide) rfl (by decide) (by decide)
      rfl rfl rfl (by decide)).2.1,
   (refresh_replaces_refresh_token ⟨some "oldAT", some "oldRT"⟩
      ⟨⟨401, ⟨true, "e1"⟩⟩, .returned ⟨true, "n", some ⟨some "newAT", none⟩⟩,
       ⟨200, ⟨false, "paid"⟩⟩⟩ "oldRT" "newAT" "n" (by decide) rfl (by decide) (by decide)
      rfl rfl rfl (by decide)).2.2.1,
   ((refresh_replaces_refresh_token ⟨some "oldAT", some "oldRT"⟩
      ⟨⟨401, ⟨true, "e1"⟩⟩, .returned ⟨true, "n", some ⟨some "newAT", none⟩⟩,
       ⟨200, ⟨false, "paid"⟩⟩⟩ "oldRT" "newAT" "n" (by decide) rfl (by decide) (by decide)
      rfl rfl rfl (by decide)).2.2.2.1 (.returned ⟨false, "x", none⟩)).1⟩


/-! Decimal-representation facts used to settle the
transaction-reference uniqueness claim: `Nat.repr` (the rendering of
`Date.now()` and of the random suffix inside the template literal) is
injective, via a correctness proof of the core digit printer. -/

/-- Reference decimal rendering: most-significant digit first. -/
def decChars (n : Nat) : List Char :=
  if _h : n < 10 then [Nat.digitChar n]
  else decChars (n / 10) ++ [Nat.digitChar (n % 10)]
decreasing_by
  exact Nat.div_lt_self (by omega) (by omega)

/-- The fuel-driven digit printer from core agrees with `decChars`
whenever the fuel exceeds the number. -/
theorem toDigitsCore_eq_decChars (fuel : Nat) :
    ∀ n ds, n < fuel → Nat.toDigitsCore 10 fuel n ds = decChars n ++ ds := by
  induction fuel with
  | zero => intro n ds h; omega
  | succ fuel ih =>
    intro n ds h
    unfold Nat.toDigitsCore
    by_cases h10 : n / 10 = 0
    · have hlt : n < 10 := by omega
      rw [if_pos h10, decChars, dif_pos hlt, Nat.mod_eq_of_lt hlt]
      rfl
    · have hge : 10 ≤ n := by
        by_contra hc
        exact h10 (Nat.div_eq_of_lt (by omega))
      have hdiv : n / 10 < n := Nat.div_lt_self (by omega) (by omega)
      have hstep : decChars n = decChars (n / 10) ++ [Nat.digitChar (n % 10)] := by
        rw [decChars, dif_neg (show ¬n < 10 by omega)]
      rw [if_neg h10, ih (n / 10) _ (by omega), hstep, List.append_assoc]
      rfl

/-- `Nat.toDigits 10` agrees with `decChars`. -/
theorem toDigits_eq_decChars (n : Nat) : Nat.toDigits 10 n = decChars n := by
  rw [Nat.toDigits, toDigitsCore_eq_decChars (n + 1) n [] (Nat.lt_succ_self n),
    List.append_nil]

/-- Value read back from a digit string, most-significant first. -/
def charsVal (l : List Char) : Nat :=
  l.foldl (fun a c => a * 10 + (c.toNat - 48)) 0

/-- Appending one digit multiplies the value by ten and adds it. -/
theorem charsVal_append (l : List Char) (c : Char) :
    charsVal (l ++ [c]) = charsVal l * 10 + (c.toNat - 48) := by
  simp [charsVal, List.foldl_append]

/-- `digitChar` of a digit decodes back to that digit. -/
theorem digitChar_decode (d : Nat) (h : d < 10) : (Nat.digitChar d).toNat - 48 = d := by
  interval_cases d <;> decide

/-- `decChars` is a correct rendering: reading it back returns `n`. -/
theorem charsVal_decChars (n : Nat) : charsVal (decChars n) = n := by
  induction n using Nat.strong_induction_on with
  | _ n ih =>
    rw [decChars]
    by_cases h : n < 10
    · rw [dif_pos h]
      have := digitChar_decode n h
      simp [charsVal, this]
    · have hdiv : n / 10 < n := Nat.div_lt_self (by omega) (by omega)
      rw [dif_neg h, charsVal_append, ih (n / 10) hdiv,
        digitChar_decode (n % 10) (Nat.mod_lt n (by omega))]
      omega

/-- `Nat.repr` is injective. -/
theorem repr_injective {m n : Nat} (h : Nat.repr m = Nat.repr n) : m = n := by
  have hdata : (Nat.toDigits 10 m) = (Nat.toDigits 10 n) := by
    have := congrArg String.data h
    simpa [Nat.repr, List.asString] using this
  rw [toDigits_eq_decChars, toDigits_eq_decChars] at hdata
  have := congrArg charsVal hdata
  rwa [charsVal_decChars, charsVal_decChars] at this

/-- C9 counterexample: the claim that the generated
`transactionReference` values of any two distinct sequential runs are
distinct is false on the code. Two runs that reach the gateway at
millisecond timestamps 11 and 111 with random draws 12 and 2 (both
legal values of `Math.floor(Math.random() * 1000)`) generate the same
reference `TXN1112`, because the template literal concatenates the two
numbers with no separator. -/
theorem transactionRef_collision :
    (11, 12) ≠ ((111 : Nat), (2 : Nat))
    ∧ 11 < 111 ∧ 12 < 1000 ∧ 2 < 1000
    ∧ generateTransactionRef 11 12 = generateTransactionRef 111 2 := by
  refine ⟨by decide, by decide, by decide, by decide, ?_⟩
  decide

/-- C9 (amended): the generated `transactionReference` values of two
sequential runs are distinct provided the runs' millisecond timestamps
render with the same number of decimal digits (as consecutive
`Date.now()` readings do over any realistic process lifetime) and the
runs differ in timestamp or in random draw; uniqueness is otherwise
only best-effort, since coinciding timestamp and draw — or a
digit-boundary overlap between unequal-length timestamps — produce a
collision. -/
theorem transactionRef_distinct (t1 r1 t2 r2 : Nat)
    (hlen : (Nat.repr t1).length = (Nat.repr t2).length)
    (hne : ¬(t1 = t2 ∧ r1 = r2)) :
    generateTransactionRef t1 r1 ≠ generateTransactionRef t2 r2 := by
  intro h
  apply hne
  have hdata : ("TXN".data ++ (Nat.repr t1).data) ++ (Nat.repr r1).data
      = ("TXN".data ++ (Nat.repr t2).data) ++ (Nat.repr r2).data := by
    have := congrArg String.data h
    simpa [generateTransactionRef, String.data_append, List.append_assoc] using this
  have hlen2 : ("TXN".data ++ (Nat.repr t1).data).length
      = ("TXN".data ++ (Nat.repr t2).data).length := by
    have : (Nat.repr t1).data.length = (Nat.repr t2).data.length := hlen
    simp [List.length_append, this]
  have hparts := List.append_inj hdata hlen2
  have ht : (Nat.repr t1).data = (Nat.repr t2).data :=
    (List.append_inj hparts.1 rfl).2
  have hr : (Nat.repr r1).data = (Nat.repr r2).data := hparts.2
  exact ⟨repr_injective (String.ext ht), repr_injective (String.ext hr)⟩

/-- Witness for the amended C9: two runs one millisecond apart
(timestamps 100 and 101, draws 7 and 7) generate distinct references. -/
theorem transactionRef_distinct_witness :
    generateTransactionRef 100 7 ≠ generateTransactionRef 101 7 :=
  transactionRef_distinct 100 7 101 7 (by decide) (by decide)
